/-
Verification of the supabase-ssr-user-impersonate-tool's cookie-capture shim,
snippet emitter and configuration stage (src/main.mjs), as a shallow embedding.

The tool's flow: load three configuration values from the environment, issue a
magic-link verification token, run the provider's `verifyOtp` against a null
request context whose cookie callbacks are
  get(name)              -> undefined
  set(name, value, opts) -> cookies[name] = \x7b value, options \x7d
  remove(name, opts)     -> no-op
and, on success, emit a self-contained JS snippet that replays the captured
cookie jar through `document.cookie` assignments.

The provider library (`@supabase/ssr`) is external: its verification operation
is modelled as a stub that performs a sequence of cookie-callback operations
and then reports success or an error, exactly the interface the source wires
its callbacks into.
-/
import Mathlib

/-- Cookie attributes as carried opaquely by the shim. The emitter reads only
max-age, path and same-site; domain / secure / http-only are carried but
dropped at render time. -/
structure CookieOptions where
  maxAge : Option Int := none
  path : Option String := none
  sameSite : Option String := none
  domain : Option String := none
  secure : Option Bool := none
  httpOnly : Option Bool := none
deriving DecidableEq, Repr

/-- One captured cookie: the `\x7b value, options \x7d` record the shim's `set`
callback stores under the cookie's name. -/
structure CookieEntry where
  value : String
  options : CookieOptions
deriving DecidableEq, Repr

/-- The `cookies` object of src/main.mjs: an insertion-ordered mapping from
cookie name to captured entry (JS object with string keys). -/
abbrev CookieJar := List (String × CookieEntry)

/-- JS object assignment `cookies[name] = e`: overwrite in place when the key
exists (keeping its position), append otherwise. -/
def objAssign : CookieJar → String → CookieEntry → CookieJar
  | [], name, e => [(name, e)]
  | (k, v) :: rest, name, e =>
      if k = name then (name, e) :: rest else (k, v) :: objAssign rest name e

/-- Lookup in the jar viewed as a mapping (first entry with the given key). -/
def jarLookup : CookieJar → String → Option CookieEntry
  | [], _ => none
  | (k, v) :: rest, name => if k = name then some v else jarLookup rest name

/-- The shim's `get(name)` callback: `return undefined`, whatever the current
jar contents are. -/
def cookiesGet (_jar : CookieJar) (_name : String) : Option String :=
  none

/-- The shim's `set(name, value, options)` callback:
`cookies[name] = \x7b value, options \x7d`. -/
def cookiesSet (jar : CookieJar) (name value : String) (options : CookieOptions) : CookieJar :=
  objAssign jar name ⟨value, options⟩

/-- The shim's `remove(name, options)` callback: its body is a comment — it
leaves the jar untouched and cannot fail. -/
def cookiesRemove (jar : CookieJar) (_name : String) (_options : CookieOptions) : CookieJar :=
  jar

/-- One cookie-callback operation the provider's verification may perform
through the shim's response context. -/
inductive CookieOp
  | write (name value : String) (options : CookieOptions)
  | clear (name : String) (options : CookieOptions)
deriving DecidableEq, Repr

/-- Effect of one callback operation on the jar. -/
def applyOp (jar : CookieJar) : CookieOp → CookieJar
  | .write n v o => cookiesSet jar n v o
  | .clear n o => cookiesRemove jar n o

/-- The jar accumulated by running a sequence of callback operations against
the initially empty `cookies` object. -/
def runOps (ops : List CookieOp) : CookieJar :=
  ops.foldl applyOp []

/-- Outcome of the provider's verification operation: the callback operations
it performed, and the `error` field of its result. -/
structure VerifyResult where
  ops : List CookieOp
  error : Option String
deriving DecidableEq, Repr

/-- The cookie-capture shim around `verifyOtp` (src/main.mjs): run the
provider's verification once with the null request context wired in; if it
reports an error, propagate the error and expose no jar; otherwise the
accumulated jar is the result. -/
def captureSession (verify : String → VerifyResult) (token : String) :
    Except String CookieJar :=
  let r := verify token
  match r.error with
  | some e => Except.error e
  | none => Except.ok (runOps r.ops)

/-- The value and options of the last `write` callback for a given name within
a sequence of operations (`clear` operations never contribute): the mapping
the accumulated jar is claimed to realise. -/
def lastWrite : List CookieOp → String → Option CookieEntry
  | [], _ => none
  | CookieOp.write n v o :: rest, name =>
      match lastWrite rest name with
      | some e => some e
      | none => if n = name then some ⟨v, o⟩ else none
  | CookieOp.clear _ _ :: rest, name => lastWrite rest name

/-- Whether a code point is left unescaped by JS `encodeURIComponent`:
ASCII alphanumerics and `- _ . ! ~ * ( )` together with the apostrophe
(code 39). -/
def isUnreservedCode (n : Nat) : Bool :=
  (65 ≤ n && n ≤ 90) || (97 ≤ n && n ≤ 122) || (48 ≤ n && n ≤ 57) ||
  n == 45 || n == 95 || n == 46 || n == 33 || n == 126 ||
  n == 42 || n == 39 || n == 40 || n == 41

/-- Upper-case hexadecimal digit for a value below 16. -/
def hexDigit (n : Nat) : Char :=
  Char.ofNat (if n < 10 then 48 + n else 55 + n)

/-- The `%XX` escape of one byte. -/
def percentByte (b : Nat) : String :=
  "%" ++ String.singleton (hexDigit (b / 16)) ++ String.singleton (hexDigit (b % 16))

/-- UTF-8 encoding of one code point, as byte values. -/
def utf8Bytes (n : Nat) : List Nat :=
  if n < 128 then [n]
  else if n < 2048 then [192 + n / 64, 128 + n % 64]
  else if n < 65536 then [224 + n / 4096, 128 + (n / 64) % 64, 128 + n % 64]
  else [240 + n / 262144, 128 + (n / 4096) % 64, 128 + (n / 64) % 64, 128 + n % 64]

/-- JS `encodeURIComponent`: keep unreserved characters, percent-escape the
UTF-8 bytes of everything else. -/
def encodeURIComponent (s : String) : String :=
  String.join (s.data.map fun c =>
    if isUnreservedCode c.toNat then String.singleton c
    else String.join ((utf8Bytes c.toNat).map percentByte))

/-- The per-cookie assignment string built by the emitted snippet's
`writeCookies` loop body (src/main.mjs lines 143-157): percent-encoded
name=value, then `; max-age=` whenever maxAge is not undefined, `; path=`
when path is truthy, `; samesite=` when sameSite is truthy. -/
def cookieString (name : String) (entry : CookieEntry) : String :=
  let s := encodeURIComponent name ++ "=" ++ encodeURIComponent entry.value
  let s :=
    match entry.options.maxAge with
    | some n => s ++ "; max-age=" ++ toString n
    | none => s
  let s :=
    match entry.options.path with
    | some p => if p.isEmpty then s else s ++ "; path=" ++ p
    | none => s
  let s :=
    match entry.options.sameSite with
    | some v => if v.isEmpty then s else s ++ "; samesite=" ++ v
    | none => s
  s

/-- The sequence of `document.cookie` assignments the emitted snippet performs
when run: one per jar entry, in the jar's insertion order (JS `for...in` over
an object with non-numeric string keys; `hasOwnProperty` holds for every own
key, so the `continue` guard never skips). -/
def writeCookies (cookies : CookieJar) : List String :=
  cookies.map fun p => cookieString p.1 p.2

/-- JSON string escaping of one character, as `JSON.stringify` performs it. -/
def jsonEscapeChar (c : Char) : String :=
  if c.toNat == 34 then "\\\""
  else if c.toNat == 92 then "\\\\"
  else if c.toNat == 8 then "\\b"
  else if c.toNat == 9 then "\\t"
  else if c.toNat == 10 then "\\n"
  else if c.toNat == 12 then "\\f"
  else if c.toNat == 13 then "\\r"
  else if c.toNat < 32 then
    "\\u00" ++ String.singleton (hexDigit (c.toNat / 16)) ++ String.singleton (hexDigit (c.toNat % 16))
  else String.singleton c

/-- `JSON.stringify` of a string value. -/
def jsonString (s : String) : String :=
  "\"" ++ String.join (s.data.map jsonEscapeChar) ++ "\""

/-- `JSON.stringify` of a captured options record: only the fields that are
present, one fixed field order. -/
def jsonOfOptions (o : CookieOptions) : String :=
  let fields :=
    (match o.maxAge with | some n => ["\"maxAge\":" ++ toString n] | none => []) ++
    (match o.path with | some p => ["\"path\":" ++ jsonString p] | none => []) ++
    (match o.sameSite with | some v => ["\"sameSite\":" ++ jsonString v] | none => []) ++
    (match o.domain with | some d => ["\"domain\":" ++ jsonString d] | none => []) ++
    (match o.secure with | some b => ["\"secure\":" ++ toString b] | none => []) ++
    (match o.httpOnly with | some b => ["\"httpOnly\":" ++ toString b] | none => [])
  "\x7b" ++ String.intercalate "," fields ++ "\x7d"

/-- `JSON.stringify` of one captured cookie entry. -/
def jsonOfEntry (e : CookieEntry) : String :=
  "\x7b\"value\":" ++ jsonString e.value ++ ",\"options\":" ++ jsonOfOptions e.options ++ "\x7d"

/-- `JSON.stringify(cookies)`: the jar as a JS object literal, keys in
insertion order. -/
def jsonOfJar (jar : CookieJar) : String :=
  "\x7b" ++
    String.intercalate "," (jar.map fun p => jsonString p.1 ++ ":" ++ jsonOfEntry p.2) ++
  "\x7d"

/-- Snippet template text before the embedded jar literal (the trimmed
template string of src/main.mjs lines 131-163). -/
def renderPrefix : String :=
  "(() => \x7b\n  const cookies = "

/-- Snippet template text after the embedded jar literal. -/
def renderSuffix : String :=
  "\n\n  function writeCookies(cookies) \x7b\n" ++
  "    for (var name in cookies) \x7b\n" ++
  "      if (!cookies.hasOwnProperty(name)) continue;\n\n" ++
  "      var entry = cookies[name];\n" ++
  "      var value = entry.value;\n" ++
  "      var options = entry.options;\n\n" ++
  "      var cookieString = encodeURIComponent(name) + \"=\" + encodeURIComponent(value);\n\n" ++
  "      if (options.maxAge !== undefined) \x7b\n" ++
  "        cookieString += \"; max-age=\" + options.maxAge;\n" ++
  "      \x7d\n\n" ++
  "      if (options.path) \x7b\n" ++
  "        cookieString += \"; path=\" + options.path;\n" ++
  "      \x7d\n\n" ++
  "      if (options.sameSite) \x7b\n" ++
  "        cookieString += \"; samesite=\" + options.sameSite;\n" ++
  "      \x7d\n\n" ++
  "      document.cookie = cookieString;\n" ++
  "    \x7d\n" ++
  "  \x7d\n\n" ++
  "  writeCookies(cookies)\n" ++
  "\x7d)()"

/-- The snippet emitter: the self-invoking snippet text with the jar embedded
as a `JSON.stringify` data literal. -/
def render (jar : CookieJar) : String :=
  renderPrefix ++ jsonOfJar jar ++ renderSuffix

/-- The snippet the tool emits for a token, when it emits one: only a
successful `captureSession` reaches the snippet-printing code. -/
def sessionSnippet (verify : String → VerifyResult) (token : String) : Option String :=
  match captureSession verify token with
  | Except.ok jar => some (render jar)
  | Except.error _ => none

/-- The process environment: variable name to value, absent variables being
`none`. -/
abbrev Env := String → Option String

/-- JS truthiness of an environment lookup: absent and the empty string are
falsy. -/
def truthy : Option String → Bool
  | none => false
  | some s => !s.isEmpty

/-- JS `a || b` on environment lookups. -/
def jsOr (a b : Option String) : Option String :=
  if truthy a then a else b

/-- `process.env.SUPABASE_URL || process.env.NEXT_PUBLIC_SUPABASE_URL`. -/
def supabase_url (env : Env) : Option String :=
  jsOr (env "SUPABASE_URL") (env "NEXT_PUBLIC_SUPABASE_URL")

/-- `process.env.SUPABASE_ANON_KEY || process.env.NEXT_PUBLIC_SUPABASE_ANON_KEY`. -/
def supabase_anon_key (env : Env) : Option String :=
  jsOr (env "SUPABASE_ANON_KEY") (env "NEXT_PUBLIC_SUPABASE_ANON_KEY")

/-- `process.env.SUPABASE_SERVICE_ROLE_KEY` — no fallback variable. -/
def service_role_key (env : Env) : Option String :=
  env "SUPABASE_SERVICE_ROLE_KEY"

/-- Observable outcome of the tool's startup (configuration) stage: lines
written to the error stream, the exit status if the process terminated here,
and how many network calls were made before that. -/
structure StartupResult where
  stderrLines : List String
  exitCode : Option Nat
  networkCalls : Nat
deriving DecidableEq, Repr

/-- The diagnostic the tool prints when configuration is incomplete. -/
def configErrorMessage : String :=
  "Please set the SUPABASE_URL, SUPABASE_ANON_KEY, and SUPABASE_SERVICE_ROLE_KEY environment variables in `.env`."

/-- The configuration check of src/main.mjs lines 30-37: if any of the three
resolved values is falsy, print the diagnostic to stderr and exit with
status 1, before any client is constructed or any network call is made. -/
def configCheck (env : Env) : StartupResult :=
  if !truthy (supabase_url env) || !truthy (supabase_anon_key env) ||
      !truthy (service_role_key env) then
    ⟨[configErrorMessage], some 1, 0⟩
  else
    ⟨[], none, 0⟩

/-- Stub link issuer for the end-to-end scenario of §8 of the spec: for the
email `user@example.com` it returns the token `tok_1`. -/
def stubIssueToken (email : String) : Except String String :=
  if email = "user@example.com" then Except.ok "tok_1" else Except.error "issuer error"

/-- Stub verifier for the end-to-end scenario of §8 of the spec: given
`tok_1`, it writes cookie A with value 1 and then cookie B with value 2 and
path /app; any other token fails. -/
def stubVerify (token : String) : VerifyResult :=
  if token = "tok_1" then
    ⟨[CookieOp.write "A" "1" ⟨none, none, none, none, none, none⟩,
      CookieOp.write "B" "2" ⟨none, some "/app", none, none, none, none⟩], none⟩
  else
    ⟨[], some "invalid token"⟩

theorem jarLookup_objAssign (jar : CookieJar) (n : String) (e : CookieEntry) (m : String) :
    jarLookup (objAssign jar n e) m = if n = m then some e else jarLookup jar m := by
  induction jar with
  | nil =>
    simp only [objAssign, jarLookup]
  | cons head rest ih =>
    obtain ⟨k, v⟩ := head
    by_cases hk : k = n
    · subst hk
      by_cases hm : k = m <;> simp [objAssign, jarLookup, hm]
    · by_cases hm : k = m
      · subst hm
        have hnm : ¬ n = k := fun h => hk h.symm
        simp [objAssign, jarLookup, hk, hnm]
      · simp [objAssign, jarLookup, hk, hm, ih]

theorem keys_objAssign_subset (jar : CookieJar) (n : String) (e : CookieEntry) (m : String)
    (h : m ∈ (objAssign jar n e).map Prod.fst) : m ∈ jar.map Prod.fst ∨ m = n := by
  induction jar with
  | nil =>
    simp only [objAssign, List.map_cons, List.map_nil, List.mem_singleton] at h
    exact Or.inr h
  | cons head rest ih =>
    obtain ⟨k, v⟩ := head
    by_cases hk : k = n
    · rw [show objAssign ((k, v) :: rest) n e = (n, e) :: rest from by simp [objAssign, hk]] at h
      rw [List.map_cons, List.mem_cons] at h
      rcases h with h | h
      · exact Or.inr h
      · exact Or.inl (by rw [List.map_cons, List.mem_cons]; exact Or.inr h)
    · rw [show objAssign ((k, v) :: rest) n e = (k, v) :: objAssign rest n e from by
        simp [objAssign, hk]] at h
      rw [List.map_cons, List.mem_cons] at h
      rcases h with h | h
      · exact Or.inl (by rw [List.map_cons, List.mem_cons]; exact Or.inl h)
      · rcases ih h with h2 | h2
        · exact Or.inl (by rw [List.map_cons, List.mem_cons]; exact Or.inr h2)
        · exact Or.inr h2

theorem nodup_keys_objAssign (jar : CookieJar) (n : String) (e : CookieEntry)
    (h : (jar.map Prod.fst).Nodup) : ((objAssign jar n e).map Prod.fst).Nodup := by
  induction jar with
  | nil =>
    simp [objAssign]
  | cons head rest ih =>
    obtain ⟨k, v⟩ := head
    rw [List.map_cons, List.nodup_cons] at h
    obtain ⟨hk_mem, hrest⟩ := h
    by_cases hk : k = n
    · rw [show objAssign ((k, v) :: rest) n e = (n, e) :: rest from by simp [objAssign, hk]]
      rw [List.map_cons, List.nodup_cons]
      exact ⟨hk ▸ hk_mem, hrest⟩
    · rw [show objAssign ((k, v) :: rest) n e = (k, v) :: objAssign rest n e from by
        simp [objAssign, hk]]
      rw [List.map_cons, List.nodup_cons]
      refine ⟨fun hmem => ?_, ih hrest⟩
      rcases keys_objAssign_subset rest n e k hmem with h2 | h2
      · exact hk_mem h2
      · exact hk h2

theorem jarLookup_foldl (ops : List CookieOp) (jar : CookieJar) (m : String) :
    jarLookup (ops.foldl applyOp jar) m =
      match lastWrite ops m with
      | some e => some e
      | none => jarLookup jar m := by
  induction ops generalizing jar with
  | nil =>
    simp [lastWrite]
  | cons op rest ih =>
    cases op with
    | write n v o =>
      simp only [List.foldl_cons, applyOp, cookiesSet, lastWrite]
      rw [ih]
      cases h : lastWrite rest m with
      | some e => simp [h]
      | none =>
        rw [jarLookup_objAssign]
        by_cases hnm : n = m <;> simp [h, hnm]
    | clear n o =>
      simp only [List.foldl_cons, applyOp, cookiesRemove, lastWrite]
      exact ih jar

theorem nodup_keys_foldl (ops : List CookieOp) (jar : CookieJar)
    (h : (jar.map Prod.fst).Nodup) : ((ops.foldl applyOp jar).map Prod.fst).Nodup := by
  induction ops generalizing jar with
  | nil => exact h
  | cons op rest ih =>
    cases op with
    | write n v o => exact ih _ (nodup_keys_objAssign jar n ⟨v, o⟩ h)
    | clear n o => exact ih _ h

/-- Claim C1: when the provider's verification operation reports no error,
`captureSession` succeeds and returns exactly the jar accumulated by the write
callbacks of that single call: as a mapping it sends every cookie name to the
last write performed for that name (and to absent when the name was never
written — no extraneous entries), and the jar holds no duplicate names. -/
theorem captureSession_matches_writes (verify : String → VerifyResult) (t : String)
    (h : (verify t).error = none) :
    captureSession verify t = Except.ok (runOps (verify t).ops) ∧
    (∀ n, jarLookup (runOps (verify t).ops) n = lastWrite (verify t).ops n) ∧
    ((runOps (verify t).ops).map Prod.fst).Nodup := by
  refine ⟨?_, ?_, ?_⟩
  · simp [captureSession, h]
  · intro n
    rw [runOps, jarLookup_foldl]
    cases hl : lastWrite (verify t).ops n <;> simp [jarLookup]
  · exact nodup_keys_foldl _ [] (by simp)

/-- Witness for C1: the stub verifier succeeds on the token tok_1 and the
conclusion holds there. -/
theorem captureSession_matches_writes_witness :
    (stubVerify "tok_1").error = none ∧
    (captureSession stubVerify "tok_1" = Except.ok (runOps (stubVerify "tok_1").ops) ∧
     (∀ n, jarLookup (runOps (stubVerify "tok_1").ops) n = lastWrite (stubVerify "tok_1").ops n) ∧
     ((runOps (stubVerify "tok_1").ops).map Prod.fst).Nodup) :=
  ⟨rfl, captureSession_matches_writes stubVerify "tok_1" rfl⟩

/-- Cookie-assignment string as §4.3 of the spec words it: percent-encoded
name=value, then, in this fixed order, only the attributes that are present —
max-age whenever defined (zero included), path when non-empty, same-site when
non-empty — and nothing else (the spec-side formula for the refinement proof
of claim C2; it is deliberately blind to domain, secure and http-only). -/
def specCookieAssignment (name value : String) (maxAge : Option Int)
    (path sameSite : Option String) : String :=
  encodeURIComponent name ++ "=" ++ encodeURIComponent value
    ++ (match maxAge with | some n => "; max-age=" ++ toString n | none => "")
    ++ (match path with | some p => if p.isEmpty then "" else "; path=" ++ p | none => "")
    ++ (match sameSite with | some v => if v.isEmpty then "" else "; samesite=" ++ v | none => "")

/-- Claim C2: every rendered per-cookie assignment equals the spec's formula —
percent-encoded name=value, then exactly the present attributes in the fixed
order max-age, path, samesite, with domain, secure and http-only dropped — and
on the jar entry of the spec's example it reads exactly
sb-access-token=abc123; max-age=3600; path=/; samesite=lax. -/
theorem cookieString_spec :
    (∀ (name value : String) (o : CookieOptions),
      cookieString name ⟨value, o⟩ =
        specCookieAssignment name value o.maxAge o.path o.sameSite) ∧
    cookieString "sb-access-token"
        ⟨"abc123", ⟨some 3600, some "/", some "lax", none, none, none⟩⟩ =
      "sb-access-token=abc123; max-age=3600; path=/; samesite=lax" := by
  constructor
  · intro name value o
    obtain ⟨ma, pa, ss, d, sec, ho⟩ := o
    cases ma <;> cases pa <;> cases ss <;>
        simp only [cookieString, specCookieAssignment] <;>
        (try split_ifs) <;>
        simp_all [String.append_assoc]
  · decide

/-- Claim C3: whenever the provider's verification reports an error,
`captureSession` propagates that error, returns no jar at all, and the tool
emits no snippet for that session. -/
theorem captureSession_error_no_jar (verify : String → VerifyResult) (t : String) (e : String)
    (h : (verify t).error = some e) :
    captureSession verify t = Except.error e ∧
    (∀ jar, captureSession verify t ≠ Except.ok jar) ∧
    sessionSnippet verify t = none := by
  have hc : captureSession verify t = Except.error e := by simp [captureSession, h]
  exact ⟨hc, by simp [hc], by simp [sessionSnippet, hc]⟩

/-- Witness for C3: the stub verifier fails on an unknown token and the
conclusion holds there. -/
theorem captureSession_error_no_jar_witness :
    (stubVerify "tok_bad").error = some "invalid token" ∧
    (captureSession stubVerify "tok_bad" = Except.error "invalid token" ∧
     (∀ jar, captureSession stubVerify "tok_bad" ≠ Except.ok jar) ∧
     sessionSnippet stubVerify "tok_bad" = none) :=
  ⟨rfl, captureSession_error_no_jar stubVerify "tok_bad" "invalid token" rfl⟩

/-- Claim C4: the null request context's read callback returns absent for
every cookie name at every point during the verification call — in particular
after any prefix of the call's own write and clear operations has already been
applied to the jar. -/
theorem cookiesGet_always_absent (ops : List CookieOp) (k : Nat) (name : String) :
    cookiesGet (runOps (ops.take k)) name = none :=
  rfl

/-- Claim C5: cookie names are unique within one capture session — writing the
same name twice leaves the jar mapping that name to exactly the second value
and attribute set (last-write-wins). -/
theorem cookiesSet_last_write_wins (jar : CookieJar) (name v1 v2 : String)
    (a1 a2 : CookieOptions) :
    jarLookup (cookiesSet (cookiesSet jar name v1 a1) name v2 a2) name =
      some ⟨v2, a2⟩ := by
  simp [cookiesSet, jarLookup_objAssign]

/-- Claim C6: in the end-to-end scenario — the stub issuer maps
user@example.com to tok_1 and the stub verifier writes cookie A with value 1
and then cookie B with value 2 and path /app — the captured jar holds those
two entries in insertion order, the emitted snippet performs exactly the two
cookie-write assignments A=1 and B=2; path=/app in that order, and the
rendered snippet embeds the jar literal with A before B. -/
theorem endToEnd_insertion_order :
    stubIssueToken "user@example.com" = Except.ok "tok_1" ∧
    captureSession stubVerify "tok_1" =
      Except.ok [("A", ⟨"1", ⟨none, none, none, none, none, none⟩⟩),
                 ("B", ⟨"2", ⟨none, some "/app", none, none, none, none⟩⟩)] ∧
    writeCookies [("A", ⟨"1", ⟨none, none, none, none, none, none⟩⟩),
                  ("B", ⟨"2", ⟨none, some "/app", none, none, none, none⟩⟩)] =
      ["A=1", "B=2; path=/app"] ∧
    render [("A", ⟨"1", ⟨none, none, none, none, none, none⟩⟩),
            ("B", ⟨"2", ⟨none, some "/app", none, none, none, none⟩⟩)] =
      renderPrefix ++
        "\x7b\"A\":\x7b\"value\":\"1\",\"options\":\x7b\x7d\x7d,\"B\":\x7b\"value\":\"2\",\"options\":\x7b\"path\":\"/app\"\x7d\x7d\x7d" ++
        renderSuffix :=
  ⟨rfl, rfl, rfl, rfl⟩

set_option maxRecDepth 10000 in
/-- Claim C7: `render` is a pure, deterministic, total function of the jar —
identical jars render to byte-identical snippet text, and it is defined on the
empty jar, where the snippet is non-empty text performing zero cookie
writes. -/
theorem render_pure_total (j1 j2 : CookieJar) (h : j1 = j2) :
    render j1 = render j2 ∧ writeCookies ([] : CookieJar) = [] ∧
    0 < (render ([] : CookieJar)).length := by
  subst h
  exact ⟨rfl, rfl, by decide⟩

/-- Witness for C7 at the one-entry example jar of the spec. -/
theorem render_pure_total_witness :
    [("sb-access-token",
      (⟨"abc123", ⟨some 3600, some "/", some "lax", none, none, none⟩⟩ : CookieEntry))] =
      [("sb-access-token",
        (⟨"abc123", ⟨some 3600, some "/", some "lax", none, none, none⟩⟩ : CookieEntry))] ∧
    (render [("sb-access-token",
        ⟨"abc123", ⟨some 3600, some "/", some "lax", none, none, none⟩⟩)] =
      render [("sb-access-token",
        ⟨"abc123", ⟨some 3600, some "/", some "lax", none, none, none⟩⟩)] ∧
     writeCookies ([] : CookieJar) = [] ∧ 0 < (render ([] : CookieJar)).length) :=
  ⟨rfl, render_pure_total _ _ rfl⟩

/-- Claim C8: the shim's clear callback is a no-op for every name and
attribute set — it is a total function that leaves the jar unchanged, both as
the raw callback and as an operation applied during a session. -/
theorem cookiesRemove_noop (jar : CookieJar) (name : String) (o : CookieOptions) :
    cookiesRemove jar name o = jar ∧ applyOp jar (CookieOp.clear name o) = jar :=
  ⟨rfl, rfl⟩

/-- Claim C9: when any one of the three required configuration values is
missing from the environment (for the two fallback-enabled values: both
variable names absent), the tool's startup stage prints the configuration
diagnostic to the error stream and terminates with exit status 1 — non-zero —
having made zero network calls. -/
theorem configCheck_missing_fatal (env : Env)
    (h : (env "SUPABASE_URL" = none ∧ env "NEXT_PUBLIC_SUPABASE_URL" = none) ∨
         (env "SUPABASE_ANON_KEY" = none ∧ env "NEXT_PUBLIC_SUPABASE_ANON_KEY" = none) ∨
         env "SUPABASE_SERVICE_ROLE_KEY" = none) :
    configCheck env = ⟨[configErrorMessage], some 1, 0⟩ ∧
    (configCheck env).exitCode = some 1 ∧
    (configCheck env).exitCode ≠ some 0 ∧
    (configCheck env).networkCalls = 0 ∧
    (configCheck env).stderrLines = [configErrorMessage] := by
  have hc : configCheck env = ⟨[configErrorMessage], some 1, 0⟩ := by
    rcases h with ⟨h1, h2⟩ | ⟨h1, h2⟩ | h1
    · simp [configCheck, supabase_url, jsOr, truthy, h1, h2]
    · simp [configCheck, supabase_anon_key, jsOr, truthy, h1, h2]
    · simp [configCheck, service_role_key, truthy, h1]
  refine ⟨hc, ?_, ?_, ?_, ?_⟩ <;> simp [hc]

/-- The empty environment: no variable is set. -/
def envEmpty : Env := fun _ => none

/-- Witness for C9 at the empty environment. -/
theorem configCheck_missing_fatal_witness :
    ((envEmpty "SUPABASE_URL" = none ∧ envEmpty "NEXT_PUBLIC_SUPABASE_URL" = none) ∨
     (envEmpty "SUPABASE_ANON_KEY" = none ∧ envEmpty "NEXT_PUBLIC_SUPABASE_ANON_KEY" = none) ∨
     envEmpty "SUPABASE_SERVICE_ROLE_KEY" = none) ∧
    (configCheck envEmpty = ⟨[configErrorMessage], some 1, 0⟩ ∧
     (configCheck envEmpty).exitCode = some 1 ∧
     (configCheck envEmpty).exitCode ≠ some 0 ∧
     (configCheck envEmpty).networkCalls = 0 ∧
     (configCheck envEmpty).stderrLines = [configErrorMessage]) :=
  ⟨Or.inl ⟨rfl, rfl⟩, configCheck_missing_fatal envEmpty (Or.inl ⟨rfl, rfl⟩)⟩

/-- Claim C10: the base URL and anonymous key each resolve through a fallback
pair — the value is present (truthy) exactly when either variable name holds a
non-empty value, a non-empty SUPABASE_URL / SUPABASE_ANON_KEY wins over its
NEXT_PUBLIC variant, and when the primary name is not set (not truthy) the
NEXT_PUBLIC variant is used — while the service-role key reads exactly
SUPABASE_SERVICE_ROLE_KEY, with no fallback name. -/
theorem env_fallback_resolution (env : Env) :
    truthy (supabase_url env) =
      (truthy (env "SUPABASE_URL") || truthy (env "NEXT_PUBLIC_SUPABASE_URL")) ∧
    truthy (supabase_anon_key env) =
      (truthy (env "SUPABASE_ANON_KEY") || truthy (env "NEXT_PUBLIC_SUPABASE_ANON_KEY")) ∧
    (∀ u, env "SUPABASE_URL" = some u → u ≠ "" → supabase_url env = some u) ∧
    (∀ a, env "SUPABASE_ANON_KEY" = some a → a ≠ "" → supabase_anon_key env = some a) ∧
    (truthy (env "SUPABASE_URL") = false →
      supabase_url env = env "NEXT_PUBLIC_SUPABASE_URL") ∧
    (truthy (env "SUPABASE_ANON_KEY") = false →
      supabase_anon_key env = env "NEXT_PUBLIC_SUPABASE_ANON_KEY") ∧
    service_role_key env = env "SUPABASE_SERVICE_ROLE_KEY" := by
  have hor : ∀ a b : Option String, truthy (jsOr a b) = (truthy a || truthy b) := by
    intro a b
    unfold jsOr
    by_cases h : truthy a = true <;> simp [h]
  have hwin : ∀ (a b : Option String) (u : String), a = some u → u ≠ "" → jsOr a b = a := by
    intro a b u ha hu
    have hemp : u.isEmpty = false := by
      cases hb : u.isEmpty
      · rfl
      · exact absurd ((String.isEmpty_iff u).mp hb) hu
    have : truthy a = true := by
      rw [ha]
      simp [truthy, hemp]
    simp [jsOr, this]
  have hfb : ∀ a b : Option String, truthy a = false → jsOr a b = b := by
    intro a b ha
    simp [jsOr, ha]
  refine ⟨hor _ _, hor _ _, ?_, ?_, ?_, ?_, rfl⟩
  · intro u hu hne
    rw [supabase_url, hwin _ _ u hu hne, hu]
  · intro a ha hne
    rw [supabase_anon_key, hwin _ _ a ha hne, ha]
  · intro hf
    rw [supabase_url, hfb _ _ hf]
  · intro hf
    rw [supabase_anon_key, hfb _ _ hf]

/-- An environment with both names of each fallback pair set, for the C10
witness. -/
def envBoth : Env := fun k =>
  if k = "SUPABASE_URL" then some "https://primary.example"
  else if k = "NEXT_PUBLIC_SUPABASE_URL" then some "https://public.example"
  else if k = "SUPABASE_ANON_KEY" then some "anon-primary"
  else if k = "NEXT_PUBLIC_SUPABASE_ANON_KEY" then some "anon-public"
  else if k = "SUPABASE_SERVICE_ROLE_KEY" then some "service-key"
  else none

/-- Witness for C10 at a concrete environment where both variants are set:
the non-NEXT_PUBLIC names win and the service key has no fallback. -/
theorem env_fallback_resolution_witness :
    (truthy (supabase_url envBoth) =
      (truthy (envBoth "SUPABASE_URL") || truthy (envBoth "NEXT_PUBLIC_SUPABASE_URL")) ∧
     truthy (supabase_anon_key envBoth) =
      (truthy (envBoth "SUPABASE_ANON_KEY") || truthy (envBoth "NEXT_PUBLIC_SUPABASE_ANON_KEY")) ∧
     (∀ u, envBoth "SUPABASE_URL" = some u → u ≠ "" → supabase_url envBoth = some u) ∧
     (∀ a, envBoth "SUPABASE_ANON_KEY" = some a → a ≠ "" → supabase_anon_key envBoth = some a) ∧
     (truthy (envBoth "SUPABASE_URL") = false →
       supabase_url envBoth = envBoth "NEXT_PUBLIC_SUPABASE_URL") ∧
     (truthy (envBoth "SUPABASE_ANON_KEY") = false →
       supabase_anon_key envBoth = envBoth "NEXT_PUBLIC_SUPABASE_ANON_KEY") ∧
     service_role_key envBoth = envBoth "SUPABASE_SERVICE_ROLE_KEY") ∧
    supabase_url envBoth = some "https://primary.example" ∧
    supabase_anon_key envBoth = some "anon-primary" ∧
    service_role_key envBoth = some "service-key" :=
  ⟨env_fallback_resolution envBoth, rfl, rfl, rfl⟩
